import Mathlib

/-
Verification of the AEB car-to-bicyclist scenario driver
(src/Car_to_Bicyclist_Succed.py): a shallow embedding of the TCP message
codec, the per-tick control loop of main, and the actuation logic, with
theorems settling the specification claims.

Numeric modelling: the Python doubles are modelled as exact rationals.
Fractional literals of the source are written with Rat.divInt so that
concrete values reduce inside the kernel (2.5 is Rat.divInt 5 2, and so on).
-/

namespace AebScenario

/-- Python builtin round on a rational: round half to even, as the round
builtin does on floats.  Used by receive_data for the bool-as-double
fields (bool(round(values[i]))). -/
def pyRound (q : ℚ) : ℤ :=
  if q - ⌊q⌋ < Rat.divInt 1 2 then ⌊q⌋
  else if Rat.divInt 1 2 < q - ⌊q⌋ then ⌊q⌋ + 1
  else if ⌊q⌋ % 2 = 0 then ⌊q⌋ else ⌊q⌋ + 1

/-- Inbound decision record: the sim_data dictionary of the source
(keys egoCarStop, FCW_Activate, Deceleration, AEB_Status). -/
structure InboundDecision where
  egoCarStop : Bool
  FCW_Activate : Bool
  Deceleration : ℚ
  AEB_Status : Bool
deriving DecidableEq, Repr

/-- Safe default decision: the dictionary literal that receive_data returns
on a timeout and on any other exception, and that main uses to start
sim_data (lines 62-67, 81-86 and 279-284 of the source). -/
def safe_default : InboundDecision :=
  { egoCarStop := false, FCW_Activate := false, Deceleration := 0, AEB_Status := false }

/-- Outcome of one conn.recv(8) call: a timeout exception, another I/O
exception, or a chunk of len bytes whose 8-byte struct.unpack value is val
(val is meaningful only when len is 8). -/
inductive RecvEvent
  | timeout
  | ioError
  | chunk (len : Nat) (val : ℚ)
deriving DecidableEq, Repr

/-- Python exceptions that the body of receive_data can raise past the
inner try: a non-timeout I/O error from recv, or the IndexError from
indexing values with fewer than 4 elements. -/
inductive PyExn
  | ioError
  | indexError
deriving DecidableEq, Repr

/-- Control outcome of the four-iteration recv loop of receive_data:
earlyReturn is the return of the safe default from the socket.timeout
handler, raised is a non-timeout exception escaping the inner try, and
done carries the values list accumulated by the loop. -/
inductive LoopOutcome
  | earlyReturn
  | raised
  | done (values : List ℚ)
deriving DecidableEq, Repr

/-- The loop for _ in range(4) of receive_data (lines 52-67): each
iteration consumes one recv outcome; a short chunk (len(data) < 8) is
discarded and the loop continues with the NEXT iteration; a full chunk
appends its unpacked value; a timeout returns the safe default; any other
recv error escapes the inner try.  An exhausted event list stands for a
recv that finds no data, which raises socket.timeout. -/
def recvLoop : Nat → List RecvEvent → List ℚ → LoopOutcome
  | 0, _, values => .done values
  | _ + 1, [], _ => .earlyReturn
  | _ + 1, .timeout :: _, _ => .earlyReturn
  | _ + 1, .ioError :: _, _ => .raised
  | n + 1, .chunk len v :: rest, values =>
    if len < 8 then recvLoop n rest values
    else recvLoop n rest (values ++ [v])

/-- Body of receive_data inside the outer try (lines 50-77): run the recv
loop, then build the result dictionary from values[0..3]; fewer than 4
values raises IndexError. -/
def receive_data_body (evs : List RecvEvent) : Except PyExn InboundDecision :=
  match recvLoop 4 evs [] with
  | .earlyReturn => .ok safe_default
  | .raised => .error .ioError
  | .done values =>
    if values.length < 4 then .error .indexError
    else .ok
      { egoCarStop := decide (pyRound (values.getD 0 0) ≠ 0)
        FCW_Activate := decide (pyRound (values.getD 1 0) ≠ 0)
        Deceleration := values.getD 2 0
        AEB_Status := decide (pyRound (values.getD 3 0) ≠ 0) }

/-- The function receive_data (lines 49-86): the outer except Exception
handler turns every escaped exception into the safe default, so the caller
always gets an ok decision. -/
def receive_data (evs : List RecvEvent) : Except PyExn InboundDecision :=
  match receive_data_body evs with
  | .ok d => .ok d
  | .error _ => .ok safe_default

/-- Specification predicate: the first n recv outcomes exist and are all
full chunks of at least 8 bytes (the only event prefix on which the recv
loop of the source decodes all its fields). -/
def takeFull : Nat → List RecvEvent → Bool
  | 0, _ => true
  | n + 1, .chunk len _ :: rest => decide (8 ≤ len) && takeFull n rest
  | _ + 1, _ => false

/-- Decoder following the words of the partial-read policy of the spec
(section 4.2), for comparison with receive_data: if a read yields fewer
than 8 bytes for a given field, retry THAT SAME field up to the given
budget of extra reads; once the budget is exhausted (or on a timeout or
I/O error) substitute the safe-default InboundDecision.  recvFieldRetry
reads one 8-byte field with a retry budget. -/
def recvFieldRetry : Nat → List RecvEvent → Option (ℚ × List RecvEvent)
  | _, [] => none
  | _, .timeout :: _ => none
  | _, .ioError :: _ => none
  | budget, .chunk len v :: rest =>
    if len < 8 then
      match budget with
      | 0 => none
      | b + 1 => recvFieldRetry b rest
    else some (v, rest)

/-- Decoder following the words of the partial-read policy of the spec:
read the 4 fields in order, each with the given per-field retry budget,
and substitute the safe default when any field cannot be read. -/
def receive_data_spec_retry (budget : Nat) (evs : List RecvEvent) : InboundDecision :=
  match recvFieldRetry budget evs with
  | none => safe_default
  | some (v0, r0) =>
    match recvFieldRetry budget r0 with
    | none => safe_default
    | some (v1, r1) =>
      match recvFieldRetry budget r1 with
      | none => safe_default
      | some (v2, r2) =>
        match recvFieldRetry budget r2 with
        | none => safe_default
        | some (v3, _) =>
          { egoCarStop := decide (pyRound v0 ≠ 0)
            FCW_Activate := decide (pyRound v1 ≠ 0)
            Deceleration := v2
            AEB_Status := decide (pyRound v3 ≠ 0) }

/-- A carla.VehicleControl value: throttle, brake and steer, all fields
defaulting to 0 at construction. -/
structure VehicleControl where
  throttle : ℚ
  brake : ℚ
  steer : ℚ
deriving DecidableEq, Repr

/-- The function control_ego (lines 139-154): safety override when
AEB_Status or egoCarStop or the collision flag holds, else engagement
after 2.5 seconds of scenario time with throttle max(0.3, 0.5 -
Deceleration) and brake Deceleration, else full brake.  Steer keeps the
VehicleControl default 0 in every branch. -/
def control_ego (sim_time : ℚ) (sim_data : InboundDecision) (collision : Bool) :
    VehicleControl :=
  if sim_data.AEB_Status || sim_data.egoCarStop || collision then
    { throttle := 0, brake := 1, steer := 0 }
  else if sim_time > Rat.divInt 5 2 then
    { throttle := max (Rat.divInt 3 10) (Rat.divInt 1 2 - sim_data.Deceleration)
      brake := sim_data.Deceleration
      steer := 0 }
  else
    { throttle := 0, brake := 1, steer := 0 }

/-- The function calculate_ttc (lines 17-21): infinity when the relative
velocity is at most 0, else distance divided by relative velocity. -/
def calculate_ttc (distance relative_velocity : ℚ) : WithTop ℚ :=
  if relative_velocity ≤ 0 then ⊤ else ↑(distance / relative_velocity)

/-- Outbound telemetry: the dictionary sent by main to send_data with keys
MIO_Distance, MIO_Velocity (the cyclist, the other actor) and
Ego_Velocity. -/
structure OutboundTelemetry where
  MIO_Distance : ℚ
  MIO_Velocity : ℚ
  Ego_Velocity : ℚ
deriving DecidableEq, Repr

/-- One struct.pack of format d: an 8-byte wire unit carrying one double
value. -/
structure PackedDouble where
  val : ℚ
deriving DecidableEq, Repr

/-- Byte size of one packed double: format d of struct packs 8 bytes. -/
def PackedDouble.size (_p : PackedDouble) : Nat := 8

/-- The function send_data (lines 39-47): packs MIO_Distance, MIO_Velocity
and Ego_Velocity, in that order, one sendall of struct.pack per value. -/
def send_data (d : OutboundTelemetry) : List PackedDouble :=
  [{ val := d.MIO_Distance }, { val := d.MIO_Velocity }, { val := d.Ego_Velocity }]

/-- Total byte length of a wire message. -/
def wireBytes (w : List PackedDouble) : Nat :=
  (w.map PackedDouble.size).sum

/-- Symmetric test codec for the outbound message: reads back 3 sequential
8-byte doubles in field order. -/
def decode_telemetry (w : List PackedDouble) : Option OutboundTelemetry :=
  match w with
  | [a, b, c] => some { MIO_Distance := a.val, MIO_Velocity := b.val, Ego_Velocity := c.val }
  | _ => none

/-- Per-tick TCP outcome seen by main (lines 307-317): no connection, a
send_data exception (caught by main, which keeps the last sim_data and
never calls receive_data), or a completed send followed by receive_data
over the given recv outcomes. -/
inductive TcpOutcome
  | noConn
  | sendFail
  | exchange (evs : List RecvEvent)

/-- Environment input of one simulation tick: the measured distance
between the actors and the TCP outcome of the tick. -/
structure TickInput where
  distance : ℚ
  tcp : TcpOutcome

/-- Mutable state of the main loop across ticks: sim_time, the collision
flag, and the last sim_data. -/
structure SimState where
  sim_time : ℚ
  collision : Bool
  sim_data : InboundDecision

/-- State at the start of the main loop (lines 275-284): time 0, collision
False, sim_data the default dictionary. -/
def startState : SimState :=
  { sim_time := 0, collision := false, sim_data := safe_default }

/-- The sim_data update of one tick (lines 307-317): kept on no connection
or when send_data raises (the except around the exchange), replaced by the
result of receive_data otherwise; if receive_data itself raised, the same
except would keep the previous value. -/
def updateSimData (prev : InboundDecision) (tcp : TcpOutcome) : InboundDecision :=
  match tcp with
  | .noConn => prev
  | .sendFail => prev
  | .exchange evs =>
    match receive_data evs with
    | .ok d => d
    | .error _ => prev

/-- One iteration of the while loop of main (lines 288-328), restricted to
the control and protocol state: advance sim_time by the fixed step 0.05,
run the TCP exchange, compute the ego control from the NEW sim_data and
the OLD collision flag (line 320), then latch the collision flag when
distance < 2.5 (lines 323-325).  Returns the new state and the
VehicleControl applied to the ego this tick. -/
def tick (s : SimState) (inp : TickInput) : SimState × VehicleControl :=
  let t := s.sim_time + Rat.divInt 1 20
  let data := updateSimData s.sim_data inp.tcp
  ({ sim_time := t
     collision := if inp.distance < Rat.divInt 5 2 && !s.collision then true else s.collision
     sim_data := data },
   control_ego t data s.collision)

/-- Iterated ticks of the main loop. -/
def run : SimState → List TickInput → SimState
  | s, [] => s
  | s, i :: rest => run (tick s i).1 rest

/-- Helper evaluation: the Python round of 1.0 is 1. -/
lemma pyRound_one : pyRound 1 = 1 := by
  unfold pyRound
  simp only [Rat.divInt_eq_div]
  norm_num

/-- Helper evaluation: the Python round of 0.0 is 0. -/
lemma pyRound_zero : pyRound 0 = 0 := by
  unfold pyRound
  simp only [Rat.divInt_eq_div]
  norm_num

/-- Helper evaluation: the Python round of 0.6 is 1. -/
lemma pyRound_three_fifths : pyRound (Rat.divInt 3 5) = 1 := by
  unfold pyRound
  simp only [Rat.divInt_eq_div]
  norm_num

/-- Helper evaluation: the Python round of 0.4 is 0. -/
lemma pyRound_two_fifths : pyRound (Rat.divInt 2 5) = 0 := by
  unfold pyRound
  simp only [Rat.divInt_eq_div]
  norm_num

/-- Helper: when the recv loop completes all its iterations, the values
list gains at most one entry per iteration, and gains exactly one per
iteration only when the consumed events are all full chunks. -/
lemma recvLoop_done_bound :
    ∀ (n : ℕ) (evs : List RecvEvent) (acc values : List ℚ),
      recvLoop n evs acc = .done values →
      values.length ≤ acc.length + n ∧
        (values.length = acc.length + n → takeFull n evs = true) := by
  intro n
  induction n with
  | zero =>
    intro evs acc values h
    simp only [recvLoop, LoopOutcome.done.injEq] at h
    subst h
    exact ⟨Nat.le_refl _, fun _ => rfl⟩
  | succ n ih =>
    intro evs acc values h
    rcases evs with _ | ⟨e, rest⟩
    · simp [recvLoop] at h
    · rcases e with _ | _ | ⟨len, v⟩
      · simp [recvLoop] at h
      · simp [recvLoop] at h
      · simp only [recvLoop] at h
        by_cases hl : len < 8
        · rw [if_pos hl] at h
          obtain ⟨hle, _⟩ := ih rest acc values h
          exact ⟨by omega, fun he => by omega⟩
        · rw [if_neg hl] at h
          obtain ⟨hle, heq⟩ := ih rest (acc ++ [v]) values h
          rw [List.length_append, List.length_singleton] at hle heq
          refine ⟨by omega, fun he => ?_⟩
          simp only [takeFull, Bool.and_eq_true, decide_eq_true_eq]
          exact ⟨by omega, heq (by omega)⟩

/-- Helper: unless the first four recv outcomes are all full 8-byte
chunks, the body of receive_data returns the safe default (via the
timeout handler) or raises. -/
lemma receive_data_body_not_full (evs : List RecvEvent)
    (h : takeFull 4 evs = false) :
    receive_data_body evs = .ok safe_default ∨
      ∃ e, receive_data_body evs = .error e := by
  unfold receive_data_body
  cases hr : recvLoop 4 evs [] with
  | earlyReturn => exact Or.inl rfl
  | raised => exact Or.inr ⟨.ioError, rfl⟩
  | done values =>
    obtain ⟨hle, heq⟩ := recvLoop_done_bound 4 evs [] values hr
    rw [List.length_nil] at hle heq
    have hlt : values.length < 4 := by
      rcases Nat.lt_or_ge values.length 4 with h4 | h4
      · exact h4
      · exfalso
        have ht := heq (by omega)
        rw [ht] at h
        cases h
    exact Or.inr ⟨.indexError, by simp [hlt]⟩

/-- Helper: unless the first four recv outcomes are all full 8-byte
chunks, receive_data returns the safe default. -/
lemma receive_data_default_of_not_full (evs : List RecvEvent)
    (h : takeFull 4 evs = false) :
    receive_data evs = .ok safe_default := by
  rcases receive_data_body_not_full evs h with hb | ⟨e, hb⟩ <;>
    simp [receive_data, hb]

/-- Helper: the collision flag survives one tick once set. -/
lemma tick_collision_mono (s : SimState) (inp : TickInput)
    (h : s.collision = true) : ((tick s inp).1).collision = true := by
  simp [tick, h]

/-- Helper: the collision flag survives any remainder of the run once
set. -/
lemma run_collision_mono (inps : List TickInput) :
    ∀ s : SimState, s.collision = true → (run s inps).collision = true := by
  induction inps with
  | nil => intro s h; exact h
  | cons i rest ih =>
    intro s h
    exact ih _ (tick_collision_mono s i h)

/-- C1: for every InboundDecision, every elapsed scenario time and every
collision-flag value, if AEB_Status or egoCarStop or the collision flag is
true, then control_ego yields exactly throttle 0, brake 1, steer 0,
regardless of the Deceleration value and the elapsed time. -/
theorem control_ego_safety_override (sim_time : ℚ) (sim_data : InboundDecision)
    (collision : Bool)
    (h : sim_data.AEB_Status = true ∨ sim_data.egoCarStop = true ∨ collision = true) :
    control_ego sim_time sim_data collision = { throttle := 0, brake := 1, steer := 0 } := by
  rcases h with h | h | h <;> simp [control_ego, h]

/-- Witness for C1 at a concrete input with AEB_Status true, a nonzero
Deceleration and an elapsed time past the engagement threshold. -/
theorem control_ego_safety_override_witness :
    control_ego 3 ⟨false, false, 1, true⟩ false = ⟨0, 1, 0⟩ :=
  control_ego_safety_override 3 ⟨false, false, 1, true⟩ false (Or.inl rfl)

/-- C5: calculate_ttc equals distance divided by relative velocity when
the relative velocity is positive, and infinity when it is at most 0. -/
theorem calculate_ttc_spec (distance relative_velocity : ℚ) :
    (relative_velocity ≤ 0 → calculate_ttc distance relative_velocity = ⊤) ∧
    (0 < relative_velocity →
      calculate_ttc distance relative_velocity = ↑(distance / relative_velocity)) := by
  refine ⟨fun h => ?_, fun h => ?_⟩
  · simp [calculate_ttc, h]
  · simp [calculate_ttc, not_le.mpr h]

/-- Witness for C5: concrete evaluations on both sides of the sign
split. -/
theorem calculate_ttc_spec_witness :
    calculate_ttc 7 (-2) = ⊤ ∧ calculate_ttc 7 2 = ↑((7 : ℚ) / 2) :=
  ⟨(calculate_ttc_spec 7 (-2)).1 (by decide), (calculate_ttc_spec 7 2).2 (by decide)⟩

/-- C6: with no safety override (AEB_Status, egoCarStop and the collision
flag all false), past the 2.5 engagement threshold control_ego yields
throttle max(0.3, 0.5 - Deceleration), brake Deceleration and steer 0; at
or below the threshold it yields full brake with zero throttle, so the
ego is never throttled before the engagement threshold. -/
theorem control_ego_engagement (sim_time : ℚ) (sim_data : InboundDecision)
    (collision : Bool) (h1 : sim_data.AEB_Status = false)
    (h2 : sim_data.egoCarStop = false) (h3 : collision = false) :
    (Rat.divInt 5 2 < sim_time →
      control_ego sim_time sim_data collision =
        { throttle := max (Rat.divInt 3 10) (Rat.divInt 1 2 - sim_data.Deceleration)
          brake := sim_data.Deceleration
          steer := 0 }) ∧
    (sim_time ≤ Rat.divInt 5 2 →
      control_ego sim_time sim_data collision =
        { throttle := 0, brake := 1, steer := 0 }) := by
  refine ⟨fun ht => ?_, fun ht => ?_⟩
  · simp [control_ego, h1, h2, h3, ht]
  · simp [control_ego, h1, h2, h3, not_lt.mpr ht]

/-- Witness for C6: both branches at concrete times 3 and 1. -/
theorem control_ego_engagement_witness :
    control_ego 3 ⟨false, false, 0, false⟩ false =
      ⟨max (Rat.divInt 3 10) (Rat.divInt 1 2 - 0), 0, 0⟩ ∧
    control_ego 1 ⟨false, false, 0, false⟩ false = ⟨0, 1, 0⟩ :=
  ⟨(control_ego_engagement 3 ⟨false, false, 0, false⟩ false rfl rfl rfl).1 (by decide),
   (control_ego_engagement 1 ⟨false, false, 0, false⟩ false rfl rfl rfl).2 (by decide)⟩

/-- C8 counterexample: with Deceleration 2 (outside [0,1], which the claim
explicitly includes), no override and elapsed time 3, control_ego returns
brake 2, which is not at most 1, so the claimed brake bound fails. -/
theorem control_ego_brake_exceeds_bound :
    (control_ego 3 ⟨false, false, 2, false⟩ false).brake = 2 ∧ ¬ ((2 : ℚ) ≤ 1) := by
  refine ⟨?_, by decide⟩
  simp [control_ego, (by decide : Rat.divInt 5 2 < (3 : ℚ))]

/-- C8 amended: for every InboundDecision whose Deceleration lies in
[0,1], every elapsed time and every collision-flag value, the derived
control satisfies throttle in [0,1], brake in [0,1] and steer in
[-1,1]. -/
theorem control_ego_actuation_bounds (sim_time : ℚ) (sim_data : InboundDecision)
    (collision : Bool) (h0 : 0 ≤ sim_data.Deceleration)
    (h1 : sim_data.Deceleration ≤ 1) :
    0 ≤ (control_ego sim_time sim_data collision).throttle ∧
    (control_ego sim_time sim_data collision).throttle ≤ 1 ∧
    0 ≤ (control_ego sim_time sim_data collision).brake ∧
    (control_ego sim_time sim_data collision).brake ≤ 1 ∧
    -1 ≤ (control_ego sim_time sim_data collision).steer ∧
    (control_ego sim_time sim_data collision).steer ≤ 1 := by
  unfold control_ego
  split_ifs with hov ht
  · dsimp only
    exact ⟨by norm_num, by norm_num, by norm_num, by norm_num, by norm_num, by norm_num⟩
  · dsimp only
    refine ⟨le_trans (by norm_num [Rat.divInt_eq_div]) (le_max_left _ _),
      max_le (by norm_num [Rat.divInt_eq_div]) ?_, h0, h1, by norm_num, by norm_num⟩
    rw [Rat.divInt_eq_div]
    push_cast
    linarith
  · dsimp only
    exact ⟨by norm_num, by norm_num, by norm_num, by norm_num, by norm_num, by norm_num⟩

/-- Witness for C8 amended: concrete bounds at Deceleration 1, time 3, no
override. -/
theorem control_ego_actuation_bounds_witness :
    0 ≤ (control_ego 3 ⟨false, false, 1, false⟩ false).throttle ∧
    (control_ego 3 ⟨false, false, 1, false⟩ false).throttle ≤ 1 ∧
    0 ≤ (control_ego 3 ⟨false, false, 1, false⟩ false).brake ∧
    (control_ego 3 ⟨false, false, 1, false⟩ false).brake ≤ 1 ∧
    -1 ≤ (control_ego 3 ⟨false, false, 1, false⟩ false).steer ∧
    (control_ego 3 ⟨false, false, 1, false⟩ false).steer ≤ 1 :=
  control_ego_actuation_bounds 3 ⟨false, false, 1, false⟩ false (by decide) (by decide)

/-- C2: the collision flag starts false, is set by any tick whose distance
is below 2.5, survives every later tick once set (monotone latch,
whatever the later distances), and while it is set at the start of a tick
that tick applies full brake. -/
theorem collision_latch (s : SimState) (inp : TickInput) (inps : List TickInput) :
    startState.collision = false ∧
    (inp.distance < Rat.divInt 5 2 → ((tick s inp).1).collision = true) ∧
    (s.collision = true → (run s inps).collision = true) ∧
    (s.collision = true → (tick s inp).2 = ⟨0, 1, 0⟩) := by
  refine ⟨rfl, fun hd => ?_, fun hc => run_collision_mono inps s hc, fun hc => ?_⟩
  · by_cases hc : s.collision
    · simp [tick, hc]
    · simp [tick, hd, hc]
  · simp [tick, hc, control_ego]

/-- Witness for C2: the latch set by a close tick, preserved over a
far tick, and forcing full brake, at concrete states. -/
theorem collision_latch_witness :
    startState.collision = false ∧
    ((tick startState ⟨1, .noConn⟩).1).collision = true ∧
    (run ⟨0, true, safe_default⟩ [⟨40, .noConn⟩]).collision = true ∧
    (tick ⟨0, true, safe_default⟩ ⟨40, .noConn⟩).2 = ⟨0, 1, 0⟩ :=
  ⟨(collision_latch startState ⟨1, .noConn⟩ []).1,
   (collision_latch startState ⟨1, .noConn⟩ []).2.1 (by decide),
   (collision_latch ⟨0, true, safe_default⟩ ⟨40, .noConn⟩ [⟨40, .noConn⟩]).2.2.1 rfl,
   (collision_latch ⟨0, true, safe_default⟩ ⟨40, .noConn⟩ []).2.2.2 rfl⟩

/-- C3 counterexample: on a tick whose receive times out while a previous
decision exists (here one with AEB_Status true), the loop stores the safe
default, not the previous decision, refuting the claim that the previous
decision is retained and the default applied only when no previous
decision exists. -/
theorem tick_timeout_discards_previous :
    ((tick ⟨0, false, ⟨false, false, 0, true⟩⟩ ⟨40, .exchange [.timeout]⟩).1).sim_data =
      safe_default ∧
    safe_default ≠ (⟨false, false, 0, true⟩ : InboundDecision) :=
  ⟨rfl, by decide⟩

/-- C3 amended: on a send failure (or with no connection) the loop keeps
the previous InboundDecision; on any receive-side failure (timeout, recv
I/O error, or short read, that is, whenever the first four recv outcomes
are not all full 8-byte chunks) it stores the safe default regardless of
any previous decision; in every case the tick completes. -/
theorem tick_failure_fallback (s : SimState) (inp : TickInput) :
    (inp.tcp = .noConn → ((tick s inp).1).sim_data = s.sim_data) ∧
    (inp.tcp = .sendFail → ((tick s inp).1).sim_data = s.sim_data) ∧
    (∀ evs, inp.tcp = .exchange evs → takeFull 4 evs = false →
      ((tick s inp).1).sim_data = safe_default) := by
  refine ⟨fun h => ?_, fun h => ?_, fun evs h hf => ?_⟩
  · simp [tick, updateSimData, h]
  · simp [tick, updateSimData, h]
  · simp [tick, updateSimData, h, receive_data_default_of_not_full evs hf]

/-- Witness for C3 amended: the three fallback paths at concrete
states. -/
theorem tick_failure_fallback_witness :
    ((tick ⟨0, false, safe_default⟩ ⟨1, .noConn⟩).1).sim_data = safe_default ∧
    ((tick ⟨0, false, safe_default⟩ ⟨1, .sendFail⟩).1).sim_data = safe_default ∧
    ((tick ⟨0, false, safe_default⟩ ⟨1, .exchange [.timeout]⟩).1).sim_data = safe_default :=
  ⟨(tick_failure_fallback ⟨0, false, safe_default⟩ ⟨1, .noConn⟩).1 rfl,
   (tick_failure_fallback ⟨0, false, safe_default⟩ ⟨1, .sendFail⟩).2.1 rfl,
   (tick_failure_fallback ⟨0, false, safe_default⟩ ⟨1, .exchange [.timeout]⟩).2.2
     [.timeout] rfl rfl⟩

/-- C4: behaviour of the code at the failing input.  On the recv sequence
short 4-byte read, then full reads 1.0, 0.0, 0.3, 1.0, the source skips
the short field (the continue advances the for loop), decodes only 3
values and returns the safe default through the IndexError path, whereas
the retry policy of the spec (one retry suffices here, the budget is not
exhausted) decodes stopEgo true, fcwActive false, deceleration 0.3,
aebActive true. -/
theorem receive_data_short_read_no_retry :
    receive_data
        [.chunk 4 0, .chunk 8 1, .chunk 8 0, .chunk 8 (Rat.divInt 3 10), .chunk 8 1] =
      .ok safe_default ∧
    receive_data_spec_retry 1
        [.chunk 4 0, .chunk 8 1, .chunk 8 0, .chunk 8 (Rat.divInt 3 10), .chunk 8 1] =
      ⟨true, false, Rat.divInt 3 10, true⟩ ∧
    (⟨true, false, Rat.divInt 3 10, true⟩ : InboundDecision) ≠ safe_default := by
  refine ⟨rfl, ?_, by decide⟩
  simp [receive_data_spec_retry, recvFieldRetry, pyRound_one, pyRound_zero]

/-- C7: decoding reads 4 sequential 8-byte doubles, rounds fields 1, 2
and 4 to the nearest integer (interpreted as boolean, nonzero true) and
keeps field 3 as a real number; the stream 1.0, 0.0, 0.3, 1.0 decodes to
stopEgo true, fcwActive false, deceleration 0.3, aebActive true, and the
stream 0.6, 0.4, 0.0, 0.0 decodes to stopEgo true, fcwActive false,
deceleration 0, aebActive false. -/
theorem receive_data_decode (v0 v1 v2 v3 : ℚ) :
    receive_data [.chunk 8 v0, .chunk 8 v1, .chunk 8 v2, .chunk 8 v3] =
      .ok ⟨decide (pyRound v0 ≠ 0), decide (pyRound v1 ≠ 0), v2,
        decide (pyRound v3 ≠ 0)⟩ ∧
    receive_data [.chunk 8 1, .chunk 8 0, .chunk 8 (Rat.divInt 3 10), .chunk 8 1] =
      .ok ⟨true, false, Rat.divInt 3 10, true⟩ ∧
    receive_data
        [.chunk 8 (Rat.divInt 3 5), .chunk 8 (Rat.divInt 2 5), .chunk 8 0, .chunk 8 0] =
      .ok ⟨true, false, 0, false⟩ := by
  refine ⟨rfl, ?_, ?_⟩
  · simp [receive_data, receive_data_body, recvLoop, pyRound_one, pyRound_zero]
  · simp [receive_data, receive_data_body, recvLoop, pyRound_three_fifths,
      pyRound_two_fifths, pyRound_zero]

/-- C9: encoding an OutboundTelemetry yields exactly 24 bytes, three
8-byte doubles in the order distance, other speed, ego speed, and the
symmetric decoder reproduces the original record exactly. -/
theorem send_data_roundtrip (d : OutboundTelemetry) :
    wireBytes (send_data d) = 24 ∧
    send_data d = [⟨d.MIO_Distance⟩, ⟨d.MIO_Velocity⟩, ⟨d.Ego_Velocity⟩] ∧
    decode_telemetry (send_data d) = some d :=
  ⟨rfl, rfl, rfl⟩

/-- C10: receive_data is total at its interface: whatever the sequence of
recv outcomes, no exception escapes it and it returns a complete decision
record. -/
theorem receive_data_total (evs : List RecvEvent) :
    ∃ d : InboundDecision, receive_data evs = Except.ok d := by
  unfold receive_data
  cases hb : receive_data_body evs with
  | ok d => exact ⟨d, rfl⟩
  | error e => exact ⟨safe_default, rfl⟩

end AebScenario
